import Mathlib

/-!
# Verification of the `firebase-admin` entity-lifecycle core

Shallow embedding of `src/account.js` and `src/instance.js`:

* JavaScript JSON-ish values are modelled by `JSVal` (with `undefined` for the
  JavaScript `undefined`), truthiness by `JSVal.truthy`, and property access
  by `JSVal.getProp` (which fails, i.e. models a thrown `TypeError`, exactly
  on `null`/`undefined` receivers).
* Each remote operation is split into the part that runs before the HTTP
  request is issued (a `FirstAction`: an immediate local rejection, an
  immediate local resolution, or the outgoing `HttpRequest`) and the
  response callback (a pure function of the transport error, status code and
  parsed body, returning an `Outcome` and the updated local state).
* `createDatabase`/`deleteDatabase` run `JSON.parse` on the raw body before
  any other check; their callbacks therefore take the *result* of that parse
  (`Except String JSVal`, `.error` modelling a thrown `SyntaxError`).
  Operations issued with `json: true` receive the decoded body directly.
-/

/-- A JavaScript value as this library manipulates them: JSON values plus
`undefined`.  Numbers are modelled as integers (no floating point is used in
the code under study). -/
inductive JSVal : Type where
  | undefined : JSVal
  | null : JSVal
  | bool (b : Bool) : JSVal
  | num (n : Int) : JSVal
  | str (s : String) : JSVal
  | arr (elems : List JSVal) : JSVal
  | obj (fields : List (String × JSVal)) : JSVal

namespace JSVal

/-- Structural (boolean) equality on `JSVal`; on the values this library
compares (strings) it coincides with JavaScript strict equality. -/
def beq : JSVal → JSVal → Bool
  | undefined, undefined => true
  | null, null => true
  | bool a, bool b => a == b
  | num a, num b => a == b
  | str a, str b => a == b
  | arr [], arr [] => true
  | arr (a :: as), arr (b :: bs) => beq a b && beq (arr as) (arr bs)
  | obj [], obj [] => true
  | obj ((k, v) :: fs), obj ((l, w) :: gs) =>
      k == l && beq v w && beq (obj fs) (obj gs)
  | _, _ => false

theorem beq_iff : ∀ a b : JSVal, (beq a b = true) ↔ a = b
  | undefined, undefined => by simp [beq]
  | null, null => by simp [beq]
  | bool a, bool b => by simp [beq]
  | num a, num b => by simp [beq]
  | str a, str b => by simp [beq]
  | arr [], arr [] => by simp [beq]
  | arr (a :: as), arr (b :: bs) => by
      simp [beq, beq_iff a b, beq_iff (arr as) (arr bs)]
  | obj [], obj [] => by simp [beq]
  | obj ((k, v) :: fs), obj ((l, w) :: gs) => by
      simp [beq, beq_iff v w, beq_iff (obj fs) (obj gs), and_assoc]
  | undefined, null | undefined, bool _ | undefined, num _ | undefined, str _ | undefined, arr _
  | undefined, obj _ | null, undefined | null, bool _ | null, num _ | null, str _
  | null, arr _ | null, obj _ | bool _, undefined | bool _, null | bool _, num _
  | bool _, str _ | bool _, arr _ | bool _, obj _ | num _, undefined | num _, null
  | num _, bool _ | num _, str _ | num _, arr _ | num _, obj _ | str _, undefined
  | str _, null | str _, bool _ | str _, num _ | str _, arr _ | str _, obj _
  | arr _, undefined | arr _, null | arr _, bool _ | arr _, num _ | arr _, str _
  | arr _, obj _ | obj _, undefined | obj _, null | obj _, bool _ | obj _, num _
  | obj _, str _ | obj _, arr _ => by simp [beq]
  | arr [], arr (_ :: _) | arr (_ :: _), arr [] => by simp [beq]
  | obj [], obj (_ :: _) | obj (_ :: _), obj [] => by simp [beq]

instance : DecidableEq JSVal := fun a b => decidable_of_iff _ (beq_iff a b)

instance : BEq JSVal := ⟨beq⟩

instance : LawfulBEq JSVal where
  eq_of_beq h := (beq_iff _ _).mp h
  rfl := (beq_iff _ _).mpr rfl

/-- JavaScript truthiness: `undefined`, `null`, `false`, `0`, and `''` are
falsy; every other value (including every object and array) is truthy. -/
def truthy : JSVal → Bool
  | undefined => false
  | null => false
  | bool b => b
  | num n => n != 0
  | str s => s ≠ ""
  | arr _ => true
  | obj _ => true

/-- First binding of a key in an object's field list (JavaScript objects have
distinct keys, so first-match lookup is exact on real states). -/
def lookupField : List (String × JSVal) → String → JSVal
  | [], _ => undefined
  | (k, v) :: rest, key => if k = key then v else lookupField rest key

/-- Property access `v.key` on a receiver already known to be safe (used
where the source guards the access, e.g. `body && body.error`).  Non-object
receivers yield `undefined`. -/
def getField : JSVal → String → JSVal
  | obj fields, key => lookupField fields key
  | _, _ => undefined

/-- Property access `v.key` as JavaScript performs it: on `null` or
`undefined` it throws a `TypeError` (`none`); on any other value it yields
the property (for non-objects, `undefined`). -/
def getProp : JSVal → String → Option JSVal
  | undefined, _ => none
  | null, _ => none
  | obj fields, key => some (lookupField fields key)
  | _, _ => some undefined

end JSVal

/-- Models `Array.prototype.indexOf` (strict equality; tokens are strings so
structural equality coincides with JavaScript `===` here). -/
def jsIndexOf (elems : List JSVal) (x : JSVal) : Option Nat :=
  match elems with
  | [] => none
  | e :: rest => if e = x then some 0 else (jsIndexOf rest x).map (· + 1)

/-- Models `arr.splice(arr.indexOf(x), 1)`: removes the first occurrence of `x`;
when `x` is absent, `indexOf` yields `-1` and `splice(-1, 1)` removes the
*last* element. -/
def spliceIndexOf (elems : List JSVal) (x : JSVal) : List JSVal :=
  match jsIndexOf elems x with
  | some i => elems.eraseIdx i
  | none => elems.eraseIdx (elems.length - 1)

/-- HTTP method of an outgoing request (`request.get/post/put/del`). -/
inductive HttpMethod : Type where
  | get | post | put | del
deriving DecidableEq

/-- An outgoing HTTP request as assembled by the library: method, URL,
query-string parameters (`qs`) and body/form payload. -/
structure HttpRequest : Type where
  method : HttpMethod
  url : String
  qs : List (String × JSVal) := []
  body : JSVal := .undefined
deriving DecidableEq

/-- Every distinct `new Error(...)` / rejection site in the two source
files, carrying the data interpolated into the message. -/
inductive JsError : Type where
  /-- the transport error object `err` is passed through as-is -/
  | transport (e : String)
  /-- Models `new Error(response.statusCode)`. -/
  | httpStatus (code : Nat)
  /-- Models `new Error(body.error)`. -/
  | remoteError (e : JSVal)
  /-- Models `new Error('Firebase error: ' + body.error)` (account.js). -/
  | firebaseError (e : JSVal)
  /-- Models `new Error('Bad credentials or server error.')`. -/
  | badCredentials
  /-- Models `new Error('personalToken was not present.')`. -/
  | missingPersonalToken
  /-- Models `new Error('firebaseToken was not present.')`. -/
  | missingFirebaseToken
  /-- Models `new Error('Cannot <op> deleted database ' + this.toString())`. -/
  | deletedInstance (op : String) (instUrl : String)
  /-- Models `new Error('Cannot delete already-deleted database ' + db.toString())`. -/
  | alreadyDeleted (instUrl : String)
  /-- Models `new Error('No such token exists on firebase ' + this.toString())`. -/
  | unknownToken (instUrl : String)
  /-- Models `new Error(body.status)` when a status field is present but not `'ok'`. -/
  | statusNotOk (status : JSVal)
  /-- Models the auth endpoints' `new Error(body.error.message)` with optional `.code`. -/
  | authError (message : JSVal) (code : Option JSVal)
  /-- Models `new Error('No user body')` (listUsers). -/
  | noUserBody
deriving DecidableEq

/-- How a response callback settles (or fails to settle) the deferred:
`thrown` models a synchronous exception inside the callback, in which case
the promise is never settled at all. -/
inductive Outcome (α : Type) : Type where
  | rejected (e : JsError)
  | resolved (v : α)
  | thrown (msg : String)
deriving DecidableEq

/-- What an operation does before (or instead of) touching the network:
an immediate local rejection, an immediate local resolution, or the single
outgoing HTTP request. -/
inductive FirstAction (α : Type) : Type where
  | rejectNow (e : JsError)
  | resolveNow (v : α)
  | sendRequest (req : HttpRequest)
deriving DecidableEq

namespace FirstAction

/-- Discriminator: is this an immediate local rejection? -/
def isRejectNow {α : Type} : FirstAction α → Bool
  | rejectNow _ => true
  | _ => false

end FirstAction

/-- JavaScript string coercion (`'' + v`), used where the source
interpolates a value into a URL or message.  Primitives are exact; arrays
use `Array.prototype.join(',')` (with `null`/`undefined` elements becoming
empty), objects their default tag.  The token interpolated into the
secret-deletion URL is a string in every reachable state. -/
def jsCoerceString : JSVal → String
  | .undefined => "undefined"
  | .null => "null"
  | .bool b => if b then "true" else "false"
  | .num n => toString n
  | .str s => s
  | .obj _ => "[object Object]"
  | .arr [] => ""
  | .arr [x] => if x = .undefined ∨ x = .null then "" else jsCoerceString x
  | .arr (x :: y :: xs) =>
      (if x = .undefined ∨ x = .null then "" else jsCoerceString x) ++ "," ++
        jsCoerceString (.arr (y :: xs))
termination_by v => sizeOf v
decreasing_by all_goals (simp only [JSVal.arr.sizeOf_spec, List.cons.sizeOf_spec]; omega)

/-- Local state of a `FirebaseInstance` object (instance.js).  In the
source, `personalToken`, `firebaseToken`, `deleted` and `authTokens` start
out as the (falsy) JavaScript `undefined`; `deleted` is only ever compared
by truthiness and only ever set to `true`, so it is modelled as a `Bool`. -/
structure FirebaseInstanceState : Type where
  name : String
  adminToken : String
  personalToken : JSVal := .undefined
  firebaseToken : JSVal := .undefined
  deleted : Bool := false
  authTokens : JSVal := .undefined
deriving DecidableEq

namespace FirebaseInstance

/-- State of a freshly constructed `new FirebaseInstance(name, adminToken)`
(instance.js:26-31), before the readiness exchange completes. -/
def new (name adminToken : String) : FirebaseInstanceState :=
  { name := name, adminToken := adminToken }

/-- Embeds `FirebaseInstance.prototype.toString` (instance.js:69-71). -/
def toString (inst : FirebaseInstanceState) : String :=
  "https://" ++ inst.name ++ ".firebaseio.com"

/-- The readiness-exchange request fired by the constructor
(instance.js:33-39). -/
def readyRequest (name adminToken : String) : HttpRequest :=
  { method := .get
    url := "https://admin.firebase.com/firebase/" ++ name ++ "/token"
    qs := [("token", .str adminToken), ("namespace", .str name)] }

/-- The readiness-exchange response callback (instance.js:40-58); the
request is issued with `json: true`, so `body` is the decoded value.  On
success it stores `personalToken`/`firebaseToken` and resolves with `this`.
Returns the outcome together with the (possibly updated) state. -/
def readyCallback (inst : FirebaseInstanceState) (err : Option String)
    (statusCode : Nat) (body : JSVal) :
    Outcome FirebaseInstanceState × FirebaseInstanceState :=
  match err with
  | some e => (.rejected (.transport e), inst)
  | none =>
    if statusCode ≠ 200 then (.rejected (.httpStatus statusCode), inst)
    else
      match body.getProp "error" with
      | none => (.thrown "TypeError", inst)
      | some ev =>
        if ev.truthy then (.rejected (.remoteError ev), inst)
        else if body.getField "success" = .bool false then
          (.rejected .badCredentials, inst)
        else if ¬ (body.getField "personalToken").truthy then
          (.rejected .missingPersonalToken, inst)
        else if ¬ (body.getField "firebaseToken").truthy then
          (.rejected .missingFirebaseToken, inst)
        else
          let inst' := { inst with
            personalToken := body.getField "personalToken"
            firebaseToken := body.getField "firebaseToken" }
          (.resolved inst', inst')

/-- The secrets-listing request of `getAuthTokens` (instance.js:101-106);
note the double slash before `.settings` in the source URL. -/
def getAuthTokensRequest (inst : FirebaseInstanceState) : HttpRequest :=
  { method := .get
    url := "https://" ++ inst.name ++ ".firebaseio.com//.settings/secrets.json"
    qs := [("auth", inst.personalToken)] }

/-- Embeds `getAuthTokens` up to its (only) network request
(instance.js:86-106): the deleted fast-fail, then the cache hit on a truthy
`this.authTokens`, then the GET. -/
def getAuthTokensFA (inst : FirebaseInstanceState) : FirstAction JSVal :=
  if inst.deleted then
    .rejectNow (.deletedInstance "getAuthTokens from" (toString inst))
  else if inst.authTokens.truthy then
    .resolveNow inst.authTokens
  else
    .sendRequest (getAuthTokensRequest inst)

/-- The `getAuthTokens` fetch callback (instance.js:107-118): strict
status-200 check, unguarded `body.error`, then the whole body is cached as
`this.authTokens` and resolved. -/
def getAuthTokensCallback (inst : FirebaseInstanceState) (err : Option String)
    (statusCode : Nat) (body : JSVal) :
    Outcome JSVal × FirebaseInstanceState :=
  match err with
  | some e => (.rejected (.transport e), inst)
  | none =>
    if statusCode ≠ 200 then (.rejected (.httpStatus statusCode), inst)
    else
      match body.getProp "error" with
      | none => (.thrown "TypeError", inst)
      | some ev =>
        if ev.truthy then (.rejected (.remoteError ev), inst)
        else (.resolved body, { inst with authTokens := body })

/-- Embeds `addAuthToken` up to its network request (instance.js:136-151). -/
def addAuthTokenFA (inst : FirebaseInstanceState) : FirstAction JSVal :=
  if inst.deleted then
    .rejectNow (.deletedInstance "addAuthToken to" (toString inst))
  else
    .sendRequest
      { method := .post
        url := "https://" ++ inst.name ++ ".firebaseio.com/.settings/secrets.json"
        qs := [("auth", inst.personalToken)] }

/-- The `addAuthToken` response callback (instance.js:152-166): strict
status-200 check, unguarded `body.error`; on success the cache is created
(`[]`) if not yet truthy, the new token (the whole response body) is pushed
onto it, and the body is resolved. -/
def addAuthTokenCallback (inst : FirebaseInstanceState) (err : Option String)
    (statusCode : Nat) (body : JSVal) :
    Outcome JSVal × FirebaseInstanceState :=
  match err with
  | some e => (.rejected (.transport e), inst)
  | none =>
    if statusCode ≠ 200 then (.rejected (.httpStatus statusCode), inst)
    else
      match body.getProp "error" with
      | none => (.thrown "TypeError", inst)
      | some ev =>
        if ev.truthy then (.rejected (.remoteError ev), inst)
        else
          match (if inst.authTokens.truthy then inst.authTokens else .arr []) with
          | .arr elems =>
              (.resolved body, { inst with authTokens := .arr (elems ++ [body]) })
          | _ => (.thrown "TypeError", inst)

/-- The secret-deletion request of `removeAuthToken` (instance.js:205-210). -/
def removeAuthTokenRequest (inst : FirebaseInstanceState) (token : JSVal) :
    HttpRequest :=
  { method := .del
    url := "https://" ++ inst.name ++ ".firebaseio.com/.settings/secrets/" ++
      jsCoerceString token ++ ".json"
    qs := [("auth", inst.personalToken)] }

/-- Embeds `removeAuthToken` up to its first network request
(instance.js:186-210): deleted fast-fail; then `getAuthTokens` — on a cache
hit its `then` callback runs synchronously-locally: a non-array cache or an
absent token rejects with the unknown-token error, otherwise the DELETE is
issued; on a cache miss the first request is the secrets-listing GET. -/
def removeAuthTokenFA (inst : FirebaseInstanceState) (token : JSVal) :
    FirstAction Unit :=
  if inst.deleted then
    .rejectNow (.deletedInstance "removeAuthToken from" (toString inst))
  else if inst.authTokens.truthy then
    match inst.authTokens with
    | .arr elems =>
      if jsIndexOf elems token = none then
        .rejectNow (.unknownToken (toString inst))
      else
        .sendRequest (removeAuthTokenRequest inst token)
    | _ => .rejectNow (.unknownToken (toString inst))
  else
    .sendRequest (getAuthTokensRequest inst)

/-- The `removeAuthToken` DELETE callback (instance.js:211-222): lenient
status check (`> 299`), guarded `body && body.error`; on success the token
is spliced out of `this.authTokens` at its `indexOf` and `this` resolved. -/
def removeAuthTokenCallback (inst : FirebaseInstanceState) (token : JSVal)
    (err : Option String) (statusCode : Nat) (body : JSVal) :
    Outcome FirebaseInstanceState × FirebaseInstanceState :=
  match err with
  | some e => (.rejected (.transport e), inst)
  | none =>
    if statusCode > 299 then (.rejected (.httpStatus statusCode), inst)
    else if body.truthy ∧ (body.getField "error").truthy then
      (.rejected (.remoteError (body.getField "error")), inst)
    else
      match inst.authTokens with
      | .arr elems =>
          let inst' := { inst with authTokens := .arr (spliceIndexOf elems token) }
          (.resolved inst', inst')
      | _ => (.thrown "TypeError", inst)

/-- Embeds `getRules` up to its network request (instance.js:244-259). -/
def getRulesFA (inst : FirebaseInstanceState) : FirstAction JSVal :=
  if inst.deleted then
    .rejectNow (.deletedInstance "getRules from" (toString inst))
  else
    .sendRequest
      { method := .get
        url := "https://" ++ inst.name ++ ".firebaseio.com/.settings/rules.json"
        qs := [("auth", inst.personalToken)] }

/-- The `getRules` response callback (instance.js:260-271): lenient status
check, guarded `body && body.error`, then resolves `body.rules` (that
access is unguarded in the source). -/
def getRulesCallback (err : Option String) (statusCode : Nat) (body : JSVal) :
    Outcome JSVal :=
  match err with
  | some e => .rejected (.transport e)
  | none =>
    if statusCode > 299 then .rejected (.httpStatus statusCode)
    else if body.truthy ∧ (body.getField "error").truthy then
      .rejected (.remoteError (body.getField "error"))
    else
      match body.getProp "rules" with
      | none => .thrown "TypeError"
      | some r => .resolved r

/-- The `rules`-wrapping normalization of `setRules` (instance.js:303-307)
for object arguments: the caller's object is used as-is only when its
`rules` property is truthy *and* it has exactly one key; otherwise the
whole object is wrapped under a fresh `rules` key. -/
def setRulesBody (newRules : List (String × JSVal)) : JSVal :=
  if (JSVal.lookupField newRules "rules").truthy ∧ newRules.length = 1 then
    .obj newRules
  else
    .obj [("rules", .obj newRules)]

/-- Embeds `setRules` up to its network request (instance.js:295-317):
deleted fast-fail, normalization, then the PUT carrying the normalized
document as its JSON body. -/
def setRulesFA (inst : FirebaseInstanceState)
    (newRules : List (String × JSVal)) : FirstAction Unit :=
  if inst.deleted then
    .rejectNow (.deletedInstance "setRules on" (toString inst))
  else
    .sendRequest
      { method := .put
        url := "https://" ++ inst.name ++ ".firebaseio.com/.settings/rules.json"
        qs := [("auth", inst.personalToken)]
        body := setRulesBody newRules }

/-- The `setRules` response callback (instance.js:318-330): lenient status
check, guarded `body && body.error`, then `body && body.status !== 'ok'`
rejects with the status value, else `this` is resolved. -/
def setRulesCallback (inst : FirebaseInstanceState) (err : Option String)
    (statusCode : Nat) (body : JSVal) : Outcome FirebaseInstanceState :=
  match err with
  | some e => .rejected (.transport e)
  | none =>
    if statusCode > 299 then .rejected (.httpStatus statusCode)
    else if body.truthy ∧ (body.getField "error").truthy then
      .rejected (.remoteError (body.getField "error"))
    else if body.truthy ∧ body.getField "status" ≠ .str "ok" then
      .rejected (.statusNotOk (body.getField "status"))
    else .resolved inst

/-- Embeds `getAuthConfig` up to its network request (instance.js:342-351).
Unlike the token and rules operations it performs no `deleted` check: the
request is issued unconditionally. -/
def getAuthConfigFA (inst : FirebaseInstanceState) : FirstAction JSVal :=
  .sendRequest
    { method := .get
      url := "https://" ++ inst.name ++ ".firebaseio.com/.settings/.json"
      qs := [("auth", inst.personalToken)] }

/-- The `getAuthConfig` response callback (instance.js:352-370): lenient
status check, guarded `body && body.error`; then, if `body.authConfig` is
the empty string, `null` is resolved, otherwise `JSON.parse(body.authConfig)`
is resolved.  `parse` abstracts `JSON.parse` (standard-library code outside
this repository); a `.error` result models a thrown `SyntaxError`. -/
def getAuthConfigCallback (parse : JSVal → Except String JSVal)
    (err : Option String) (statusCode : Nat) (body : JSVal) : Outcome JSVal :=
  match err with
  | some e => .rejected (.transport e)
  | none =>
    if statusCode > 299 then .rejected (.httpStatus statusCode)
    else if body.truthy ∧ (body.getField "error").truthy then
      .rejected (.remoteError (body.getField "error"))
    else
      match body.getProp "authConfig" with
      | none => .thrown "TypeError"
      | some ac =>
        if ac = .str "" then .resolved .null
        else
          match parse ac with
          | .ok v => .resolved v
          | .error m => .thrown m

/-- Embeds `setAuthConfig` up to its network request (instance.js:376-387):
no `deleted` check; POSTs the `JSON.stringify`-serialized configuration
with an override-method marker.  `stringify` abstracts `JSON.stringify`. -/
def setAuthConfigFA (stringify : JSVal → String)
    (inst : FirebaseInstanceState) (config : JSVal) : FirstAction JSVal :=
  .sendRequest
    { method := .post
      url := "https://admin.firebase.com/firebase/" ++ inst.name ++ "/authConfig"
      body := .obj [("token", .str inst.adminToken),
                    ("authConfig", .str (stringify config)),
                    ("_method", .str "put")] }

/-- The `setAuthConfig` response callback (instance.js:388-399): lenient
status check, guarded `body && body.error`, then `deferred.resolve()`
(i.e. resolution with `undefined`). -/
def setAuthConfigCallback (err : Option String) (statusCode : Nat)
    (body : JSVal) : Outcome JSVal :=
  match err with
  | some e => .rejected (.transport e)
  | none =>
    if statusCode > 299 then .rejected (.httpStatus statusCode)
    else if body.truthy ∧ (body.getField "error").truthy then
      .rejected (.remoteError (body.getField "error"))
    else .resolved .undefined

/-- The shared user-directory response callback `_authMethodCallback`
(instance.js:406-426): lenient status check, guarded `body && body.error`
unpacking `error.message`/`error.code`, then the unguarded
`body.status && body.status !== 'ok'` check, else the body is resolved. -/
def authMethodCallback (err : Option String) (statusCode : Nat)
    (body : JSVal) : Outcome JSVal :=
  match err with
  | some e => .rejected (.transport e)
  | none =>
    if statusCode > 299 then .rejected (.httpStatus statusCode)
    else if body.truthy ∧ (body.getField "error").truthy then
      let ev := body.getField "error"
      .rejected (.authError (ev.getField "message")
        (if (ev.getField "code").truthy then some (ev.getField "code") else none))
    else
      match body.getProp "status" with
      | none => .thrown "TypeError"
      | some st =>
        if st.truthy ∧ st ≠ .str "ok" then .rejected (.statusNotOk st)
        else .resolved body

/-- Embeds `createUser` up to its network request (instance.js:436-454):
no `deleted` check. -/
def createUserFA (inst : FirebaseInstanceState) (email password : String) :
    FirstAction JSVal :=
  .sendRequest
    { method := .get
      url := "https://auth.firebase.com/auth/firebase/create"
      qs := [("email", .str email), ("password", .str password),
             ("firebase", .str inst.name)] }

/-- Embeds `removeUser` up to its network request (instance.js:464-478):
no `deleted` check. -/
def removeUserFA (inst : FirebaseInstanceState) (email : String) :
    FirstAction JSVal :=
  .sendRequest
    { method := .del
      url := "https://auth.firebase.com/v2/" ++ inst.name ++ "/users/" ++ email
      qs := [("token", .str inst.adminToken)] }

/-- Embeds `changeUserPassword` up to its network request
(instance.js:489-506): no `deleted` check. -/
def changeUserPasswordFA (inst : FirebaseInstanceState)
    (email newPassword : String) : FirstAction JSVal :=
  .sendRequest
    { method := .get
      url := "https://auth.firebase.com/auth/firebase/reset_password"
      qs := [("token", .str inst.adminToken), ("firebase", .str inst.name),
             ("email", .str email), ("newPassword", .str newPassword)] }

/-- Embeds `listUsers` up to its network request (instance.js:514-527):
no `deleted` check. -/
def listUsersFA (inst : FirebaseInstanceState) : FirstAction JSVal :=
  .sendRequest
    { method := .get
      url := "https://auth.firebase.com/v2/" ++ inst.name ++ "/users"
      qs := [("token", .str inst.adminToken), ("firebase", .str inst.name)] }

/-- The `listUsers` post-processing of the resolved body
(instance.js:528-535): a missing/falsy `users` field raises the
no-user-body error, otherwise the `users` field is the result. -/
def listUsersThen (body : JSVal) : Outcome JSVal :=
  match body.getProp "users" with
  | none => .thrown "TypeError"
  | some users =>
    if ¬ users.truthy then .rejected .noUserBody
    else .resolved users

/-- Embeds `sendResetEmail` up to its network request (instance.js:546-563):
no `deleted` check. -/
def sendResetEmailFA (inst : FirebaseInstanceState) (email : String) :
    FirstAction JSVal :=
  .sendRequest
    { method := .get
      url := "https://auth.firebase.com/auth/firebase/reset_password"
      qs := [("token", .str inst.adminToken), ("firebase", .str inst.name),
             ("email", .str email)] }

end FirebaseInstance

/-- Local state of a `FirebaseAccount` object (account.js:16-23): the admin
token and the instance registry `_dbs`.  Registry entries are identified by
a numeric id standing for the object identity of the stored
`FirebaseInstance` reference. -/
structure FirebaseAccountState : Type where
  adminToken : String
  dbs : List (String × Nat) := []
deriving DecidableEq

namespace FirebaseAccount

/-- Registry lookup `this._dbs[name]` (stored instances are objects, hence
truthy, so presence coincides with truthiness). -/
def lookupDb : List (String × Nat) → String → Option Nat
  | [], _ => none
  | (k, v) :: rest, key => if k = key then some v else lookupDb rest key

/-- Registry store `this._dbs[name] = inst` (overwrites any previous
binding). -/
def upsertDb : List (String × Nat) → String → Nat → List (String × Nat)
  | [], key, v => [(key, v)]
  | (k, w) :: rest, key, v =>
      if k = key then (key, v) :: rest else (k, w) :: upsertDb rest key v

/-- Registry removal `delete this._dbs[name]`. -/
def removeDb : List (String × Nat) → String → List (String × Nat)
  | [], _ => []
  | (k, w) :: rest, key =>
      if k = key then removeDb rest key else (k, w) :: removeDb rest key

/-- The `createDatabase` provisioning request (account.js:92-97): a POST
whose form payload carries the admin token and the instance name. -/
def createDatabaseRequest (acct : FirebaseAccountState) (name : String) :
    HttpRequest :=
  { method := .post
    url := "https://admin.firebase.com/firebase/" ++ name
    body := .obj [("token", .str acct.adminToken), ("appName", .str name)] }

/-- The `createDatabase` response callback (account.js:98-112).  The source
runs `body = JSON.parse(body)` *before* any other check, so the callback is
a function of that parse's result (`.error m` models a thrown
`SyntaxError`; in particular, on a transport failure the raw body is
`undefined` and `JSON.parse(undefined)` throws, since `'undefined'` is not
valid JSON).  `freshId` identifies the `FirebaseInstance` constructed on
success.  Returns the outcome (resolving with the id stored in the
registry), the updated account state, and the state of the newly
constructed instance when one is built. -/
def createDatabaseCallback (acct : FirebaseAccountState) (name : String)
    (freshId : Nat) (err : Option String) (statusCode : Nat)
    (parsed : Except String JSVal) :
    Outcome Nat × FirebaseAccountState × Option FirebaseInstanceState :=
  match parsed with
  | .error m => (.thrown m, acct, none)
  | .ok body =>
    match err with
    | some e => (.rejected (.transport e), acct, none)
    | none =>
      if statusCode ≠ 200 then (.rejected (.httpStatus statusCode), acct, none)
      else
        match body.getProp "error" with
        | none => (.thrown "TypeError", acct, none)
        | some ev =>
          if ev.truthy then (.rejected (.firebaseError ev), acct, none)
          else if body.getField "success" = .bool false then
            (.rejected .badCredentials, acct, none)
          else
            (.resolved freshId,
             { acct with dbs := upsertDb acct.dbs name freshId },
             some (FirebaseInstance.new name acct.adminToken))

/-- Embeds `getDatabase` up to its first action (account.js:138-153): a
registry hit resolves immediately with the cached instance and no request
is sent; a miss constructs a new `FirebaseInstance`, whose constructor
fires the readiness-exchange request. -/
def getDatabaseFA (acct : FirebaseAccountState) (name : String) :
    FirstAction Nat :=
  match lookupDb acct.dbs name with
  | some instId => .resolveNow instId
  | none => .sendRequest (FirebaseInstance.readyRequest name acct.adminToken)

/-- Embeds `deleteDatabase` up to its first action (account.js:162-178):
the purely local already-deleted fast-fail, then the provisioning POST with
the `_method=DELETE` override marker. -/
def deleteDatabaseFA (acct : FirebaseAccountState)
    (db : FirebaseInstanceState) : FirstAction Unit :=
  if db.deleted then
    .rejectNow (.alreadyDeleted (FirebaseInstance.toString db))
  else
    .sendRequest
      { method := .post
        url := "https://admin.firebase.com/firebase/" ++ db.name
        body := .obj [("token", .str acct.adminToken),
                      ("namespace", .str db.name),
                      ("_method", .str "DELETE")] }

/-- The `deleteDatabase` response callback (account.js:179-195).  Like
`createDatabase` it runs `JSON.parse(body)` before any check.  On success
it sets `db.deleted = true`, deletes the registry entry and resolves with
no value.  Returns the outcome and the updated account and instance
states. -/
def deleteDatabaseCallback (acct : FirebaseAccountState)
    (db : FirebaseInstanceState) (err : Option String) (statusCode : Nat)
    (parsed : Except String JSVal) :
    Outcome Unit × FirebaseAccountState × FirebaseInstanceState :=
  match parsed with
  | .error m => (.thrown m, acct, db)
  | .ok body =>
    match err with
    | some e => (.rejected (.transport e), acct, db)
    | none =>
      if statusCode ≠ 200 then (.rejected (.httpStatus statusCode), acct, db)
      else
        match body.getProp "error" with
        | none => (.thrown "TypeError", acct, db)
        | some ev =>
          if ev.truthy then (.rejected (.firebaseError ev), acct, db)
          else if body.getField "success" = .bool false then
            (.rejected .badCredentials, acct, db)
          else
            (.resolved (),
             { acct with dbs := removeDb acct.dbs db.name },
             { db with deleted := true })

end FirebaseAccount

section Lemmas

theorem jsIndexOf_eq_none_iff (elems : List JSVal) (x : JSVal) :
    jsIndexOf elems x = none ↔ x ∉ elems := by
  induction elems with
  | nil => simp [jsIndexOf]
  | cons e rest ih =>
    by_cases he : e = x
    · subst he
      simp [jsIndexOf]
    · rw [jsIndexOf, if_neg he]
      simp only [Option.map_eq_none', ih, List.mem_cons]
      constructor
      · intro h
        rintro (rfl | hm)
        · exact he rfl
        · exact h hm
      · intro h hm
        exact h (Or.inr hm)

theorem jsIndexOf_spliceIndexOf_of_count_one :
    ∀ (elems : List JSVal) (x : JSVal), elems.count x = 1 →
      jsIndexOf (spliceIndexOf elems x) x = none := by
  intro elems
  induction elems with
  | nil => intro x h; simp [List.count] at h
  | cons e rest ih =>
    intro x h
    by_cases he : e = x
    · subst he
      have hcc := List.count_cons_self e rest
      have hc : rest.count e = 0 := by omega
      have hnm : e ∉ rest := by
        intro hm
        have := List.count_pos_iff.mpr hm
        omega
      simp [spliceIndexOf, jsIndexOf, (jsIndexOf_eq_none_iff rest e).mpr hnm]
    · have hcc := List.count_cons x e rest
      simp only [beq_iff_eq] at hcc
      rw [if_neg he] at hcc
      have hc : rest.count x = 1 := by omega
      have hmem : x ∈ rest := by
        by_contra hnm
        have h0 : rest.count x = 0 := List.count_eq_zero.mpr hnm
        omega
      obtain ⟨i, hi⟩ : ∃ i, jsIndexOf rest x = some i := by
        cases hj : jsIndexOf rest x with
        | none => exact absurd ((jsIndexOf_eq_none_iff rest x).mp hj) (by simp [hmem])
        | some i => exact ⟨i, rfl⟩
      have hsplice : spliceIndexOf (e :: rest) x = e :: spliceIndexOf rest x := by
        simp [spliceIndexOf, jsIndexOf, if_neg he, hi, List.eraseIdx]
      rw [hsplice]
      have := ih x hc
      simp [jsIndexOf, if_neg he, this]

theorem lookupDb_removeDb (l : List (String × Nat)) (k : String) :
    FirebaseAccount.lookupDb (FirebaseAccount.removeDb l k) k = none := by
  induction l with
  | nil => simp [FirebaseAccount.removeDb, FirebaseAccount.lookupDb]
  | cons p rest ih =>
    obtain ⟨a, b⟩ := p
    by_cases ha : a = k
    · simpa [FirebaseAccount.removeDb, ha] using ih
    · simp [FirebaseAccount.removeDb, ha, FirebaseAccount.lookupDb, ih]

theorem lookupDb_upsertDb (l : List (String × Nat)) (k : String) (v : Nat) :
    FirebaseAccount.lookupDb (FirebaseAccount.upsertDb l k v) k = some v := by
  induction l with
  | nil => simp [FirebaseAccount.upsertDb, FirebaseAccount.lookupDb]
  | cons p rest ih =>
    obtain ⟨a, b⟩ := p
    by_cases ha : a = k
    · simp [FirebaseAccount.upsertDb, ha, FirebaseAccount.lookupDb]
    · simp [FirebaseAccount.upsertDb, ha, FirebaseAccount.lookupDb, ih]

/-- The `setRules` normalization condition `newRules.rules && keys.length === 1`
holds exactly when the argument's key list is the one-element list `rules`
with a truthy value. -/
theorem setRules_condition_iff (r : List (String × JSVal)) :
    ((JSVal.lookupField r "rules").truthy ∧ r.length = 1) ↔
      (r.map Prod.fst = ["rules"] ∧ (JSVal.lookupField r "rules").truthy) := by
  match r with
  | [] => simp [JSVal.lookupField, JSVal.truthy]
  | [(k, v)] =>
    by_cases hk : k = "rules"
    · subst hk
      simp [JSVal.lookupField]
    · simp [JSVal.lookupField, hk, JSVal.truthy]
  | (a, x) :: (b, y) :: rest =>
    constructor
    · rintro ⟨-, h⟩
      simp at h
    · rintro ⟨h, -⟩
      simp at h

end Lemmas

/-- C1 (counterexample): on a concrete deleted Instance, `getAuthConfig`
does not reject with the deleted-instance error — it proceeds straight to
the settings GET request (instance.js:342-351 has no `deleted` check). -/
theorem getAuthConfig_ignores_deleted_flag :
    FirebaseInstance.getAuthConfigFA
      { name := "test123", adminToken := "admintok",
        personalToken := .str "ptok", deleted := true } =
      .sendRequest
        { method := .get
          url := "https://test123.firebaseio.com/.settings/.json"
          qs := [("auth", .str "ptok")] } ∧
    (FirebaseInstance.getAuthConfigFA
      { name := "test123", adminToken := "admintok",
        personalToken := .str "ptok", deleted := true }).isRejectNow = false :=
  ⟨rfl, rfl⟩

/-- C1 (amended): when an Instance's `deleted` flag is true, the token
operations (`getAuthTokens`, `addAuthToken`, `removeAuthToken`) and the
rules operations (`getRules`, `setRules`) reject immediately with the
deleted-instance error before issuing any network request; but the
auth-config operations (`getAuthConfig`, `setAuthConfig`) and the
user-directory operations (`createUser`, `removeUser`, `changeUserPassword`,
`listUsers`, `sendResetEmail`) perform no deleted check and proceed
straight to their network request. -/
theorem deleted_check_partial_coverage (inst : FirebaseInstanceState)
    (stringify : JSVal → String) (config token : JSVal)
    (newRules : List (String × JSVal)) (email password : String)
    (hdel : inst.deleted = true) :
    FirebaseInstance.getAuthTokensFA inst =
      .rejectNow (.deletedInstance "getAuthTokens from"
        (FirebaseInstance.toString inst)) ∧
    FirebaseInstance.addAuthTokenFA inst =
      .rejectNow (.deletedInstance "addAuthToken to"
        (FirebaseInstance.toString inst)) ∧
    FirebaseInstance.removeAuthTokenFA inst token =
      .rejectNow (.deletedInstance "removeAuthToken from"
        (FirebaseInstance.toString inst)) ∧
    FirebaseInstance.getRulesFA inst =
      .rejectNow (.deletedInstance "getRules from"
        (FirebaseInstance.toString inst)) ∧
    FirebaseInstance.setRulesFA inst newRules =
      .rejectNow (.deletedInstance "setRules on"
        (FirebaseInstance.toString inst)) ∧
    (FirebaseInstance.getAuthConfigFA inst).isRejectNow = false ∧
    (FirebaseInstance.setAuthConfigFA stringify inst config).isRejectNow = false ∧
    (FirebaseInstance.createUserFA inst email password).isRejectNow = false ∧
    (FirebaseInstance.removeUserFA inst email).isRejectNow = false ∧
    (FirebaseInstance.changeUserPasswordFA inst email password).isRejectNow = false ∧
    (FirebaseInstance.listUsersFA inst).isRejectNow = false ∧
    (FirebaseInstance.sendResetEmailFA inst email).isRejectNow = false := by
  simp [FirebaseInstance.getAuthTokensFA, FirebaseInstance.addAuthTokenFA,
    FirebaseInstance.removeAuthTokenFA, FirebaseInstance.getRulesFA,
    FirebaseInstance.setRulesFA, FirebaseInstance.getAuthConfigFA,
    FirebaseInstance.setAuthConfigFA, FirebaseInstance.createUserFA,
    FirebaseInstance.removeUserFA, FirebaseInstance.changeUserPasswordFA,
    FirebaseInstance.listUsersFA, FirebaseInstance.sendResetEmailFA,
    FirstAction.isRejectNow, hdel]

/-- C1 (witness for the amended theorem). -/
theorem deleted_check_partial_coverage_witness :
    FirebaseInstance.getAuthTokensFA
      { name := "test123", adminToken := "admintok", deleted := true } =
      .rejectNow (.deletedInstance "getAuthTokens from"
        "https://test123.firebaseio.com") ∧
    (FirebaseInstance.listUsersFA
      { name := "test123", adminToken := "admintok", deleted := true }).isRejectNow
      = false := by
  have h := deleted_check_partial_coverage
    { name := "test123", adminToken := "admintok", deleted := true }
    (fun _ => "null") .null .null [] "user@example.com" "password" rfl
  exact ⟨h.1, h.2.2.2.2.2.2.2.2.2.2.1⟩

/-- C2: `createDatabase` at a transport error: the source runs
`JSON.parse(body)` before checking `err`, and on a transport failure the
raw body is `undefined`, which `JSON.parse` rejects with a `SyntaxError`.
The callback therefore throws (the promise never settles) instead of
rejecting with the transport error, contradicting the claimed
transport-first precedence (and the documented contract that the promise
rejects with an Error on error). -/
theorem createDatabase_parse_preempts_transport_error :
    FirebaseAccount.createDatabaseCallback { adminToken := "admintok" } "mydb" 0
        (some "ECONNRESET") 0
        (.error "SyntaxError: Unexpected token u in JSON at position 0") =
      (.thrown "SyntaxError: Unexpected token u in JSON at position 0",
       { adminToken := "admintok" }, none) ∧
    FirebaseAccount.createDatabaseCallback { adminToken := "admintok" } "mydb" 0
        (some "ECONNRESET") 0
        (.error "SyntaxError: Unexpected token u in JSON at position 0") ≠
      (.rejected (.transport "ECONNRESET"), { adminToken := "admintok" }, none) :=
  ⟨rfl, by decide⟩

/-- C3: `deleteDatabase` rejects immediately and purely locally with the
already-deleted error when `db.deleted` is already true (its first action
is the rejection, so no request is issued regardless of remote state);
when `db.deleted` is false and the remote delete succeeds, the instance is
marked deleted and its name is removed from the registry (a subsequent
lookup misses). -/
theorem deleteDatabase_local_fastfail_and_success (acct : FirebaseAccountState)
    (db : FirebaseInstanceState) (body ev : JSVal)
    (h1 : body.getProp "error" = some ev) (h2 : ev.truthy = false)
    (h3 : body.getField "success" ≠ .bool false) :
    (db.deleted = true →
      FirebaseAccount.deleteDatabaseFA acct db =
        .rejectNow (.alreadyDeleted (FirebaseInstance.toString db))) ∧
    (db.deleted = false →
      FirebaseAccount.deleteDatabaseCallback acct db none 200 (.ok body) =
        (.resolved (),
         { acct with dbs := FirebaseAccount.removeDb acct.dbs db.name },
         { db with deleted := true }) ∧
      ({ db with deleted := true } : FirebaseInstanceState).deleted = true ∧
      FirebaseAccount.lookupDb (FirebaseAccount.removeDb acct.dbs db.name)
        db.name = none) := by
  constructor
  · intro hdel
    simp [FirebaseAccount.deleteDatabaseFA, hdel]
  · intro hdel
    refine ⟨?_, rfl, lookupDb_removeDb _ _⟩
    simp [FirebaseAccount.deleteDatabaseCallback, h1, h2, h3]

/-- C3 (witness). -/
theorem deleteDatabase_local_fastfail_and_success_witness :
    FirebaseAccount.deleteDatabaseFA { adminToken := "admintok" }
      { name := "mydb", adminToken := "admintok", deleted := true } =
      .rejectNow (.alreadyDeleted "https://mydb.firebaseio.com") ∧
    FirebaseAccount.deleteDatabaseCallback
      { adminToken := "admintok", dbs := [("mydb", 7)] }
      { name := "mydb", adminToken := "admintok" } none 200 (.ok (.obj [])) =
      (.resolved (), { adminToken := "admintok", dbs := [] },
       { name := "mydb", adminToken := "admintok", deleted := true }) := by
  constructor
  · exact (deleteDatabase_local_fastfail_and_success { adminToken := "admintok" }
      { name := "mydb", adminToken := "admintok", deleted := true }
      (.obj []) .undefined rfl rfl
      (by simp [JSVal.getField, JSVal.lookupField])).1 rfl
  · exact ((deleteDatabase_local_fastfail_and_success
      { adminToken := "admintok", dbs := [("mydb", 7)] }
      { name := "mydb", adminToken := "admintok" }
      (.obj []) .undefined rfl rfl
      (by simp [JSVal.getField, JSVal.lookupField])).2 rfl).1

/-- C4: a successful `createDatabase(name)` resolves with exactly the
registry entry it stored under `name` (the same object identity), and an
immediately following `getDatabase(name)` is a registry hit whose first
action resolves locally with that same entry — no request is issued. -/
theorem createDatabase_getDatabase_registry_hit (acct : FirebaseAccountState)
    (name : String) (freshId : Nat) (body ev : JSVal) (out : Outcome Nat)
    (acct' : FirebaseAccountState) (instOpt : Option FirebaseInstanceState)
    (h1 : body.getProp "error" = some ev) (h2 : ev.truthy = false)
    (h3 : body.getField "success" ≠ .bool false)
    (hrun : FirebaseAccount.createDatabaseCallback acct name freshId none 200
      (.ok body) = (out, acct', instOpt)) :
    out = .resolved freshId ∧
    FirebaseAccount.lookupDb acct'.dbs name = some freshId ∧
    FirebaseAccount.getDatabaseFA acct' name = .resolveNow freshId := by
  have heval : FirebaseAccount.createDatabaseCallback acct name freshId none 200
      (.ok body) =
      (.resolved freshId,
       { acct with dbs := FirebaseAccount.upsertDb acct.dbs name freshId },
       some (FirebaseInstance.new name acct.adminToken)) := by
    simp [FirebaseAccount.createDatabaseCallback, h1, h2, h3]
  rw [heval] at hrun
  simp only [Prod.mk.injEq] at hrun
  obtain ⟨hout, hacct, -⟩ := hrun
  subst hout
  subst hacct
  exact ⟨rfl, lookupDb_upsertDb acct.dbs name freshId,
    by simp [FirebaseAccount.getDatabaseFA, lookupDb_upsertDb]⟩

/-- C4 (witness). -/
theorem createDatabase_getDatabase_registry_hit_witness :
    FirebaseAccount.getDatabaseFA
      { adminToken := "admintok", dbs := [("test123", 0)] } "test123" =
      .resolveNow 0 :=
  (createDatabase_getDatabase_registry_hit { adminToken := "admintok" }
    "test123" 0 (.obj []) .undefined (.resolved 0)
    { adminToken := "admintok", dbs := [("test123", 0)] }
    (some (FirebaseInstance.new "test123" "admintok"))
    rfl rfl (by simp [JSVal.getField, JSVal.lookupField])
    (by simp [FirebaseAccount.createDatabaseCallback, FirebaseAccount.upsertDb,
      JSVal.getProp, JSVal.getField, JSVal.lookupField, JSVal.truthy,
      FirebaseInstance.new])).2.2

/-- C5 (counterexample): on a non-deleted Instance whose loaded cache lists
the token twice, a successful `removeAuthToken` splices out only the first
occurrence, so the second call still finds the token locally and issues
another DELETE request instead of rejecting with the unknown-token
error. -/
theorem removeAuthToken_duplicate_cache_second_call_networks :
    FirebaseInstance.removeAuthTokenFA
      { name := "test123", adminToken := "admintok", personalToken := .str "ptok",
        authTokens := .arr [.str "k", .str "k"] } (.str "k") =
      .sendRequest
        { method := .del
          url := "https://test123.firebaseio.com/.settings/secrets/k.json"
          qs := [("auth", .str "ptok")] } ∧
    FirebaseInstance.removeAuthTokenCallback
      { name := "test123", adminToken := "admintok", personalToken := .str "ptok",
        authTokens := .arr [.str "k", .str "k"] } (.str "k") none 200 .null =
      (.resolved
        { name := "test123", adminToken := "admintok", personalToken := .str "ptok",
          authTokens := .arr [.str "k"] },
       { name := "test123", adminToken := "admintok", personalToken := .str "ptok",
         authTokens := .arr [.str "k"] }) ∧
    FirebaseInstance.removeAuthTokenFA
      { name := "test123", adminToken := "admintok", personalToken := .str "ptok",
        authTokens := .arr [.str "k"] } (.str "k") =
      .sendRequest
        { method := .del
          url := "https://test123.firebaseio.com/.settings/secrets/k.json"
          qs := [("auth", .str "ptok")] } ∧
    (FirebaseInstance.removeAuthTokenFA
      { name := "test123", adminToken := "admintok", personalToken := .str "ptok",
        authTokens := .arr [.str "k"] } (.str "k")).isRejectNow = false := by
  refine ⟨?_, ?_, ?_, ?_⟩ <;>
    simp [FirebaseInstance.removeAuthTokenFA,
      FirebaseInstance.removeAuthTokenCallback,
      FirebaseInstance.removeAuthTokenRequest, FirebaseInstance.toString,
      JSVal.truthy, JSVal.getField, JSVal.lookupField, jsIndexOf,
      spliceIndexOf, jsCoerceString, FirstAction.isRejectNow]

/-- C5 (amended): for a non-deleted Instance whose loaded token cache lists
`t` exactly once, `removeAuthToken(t)` first issues the DELETE; when that
succeeds, `t` is spliced out of the cache, and a second `removeAuthToken(t)`
rejects immediately with the unknown-token error — its first action is the
rejection, so no remote call is issued. -/
theorem removeAuthToken_round_trip_unknown_token (inst : FirebaseInstanceState)
    (elems : List JSVal) (t body : JSVal) (statusCode : Nat)
    (out : Outcome FirebaseInstanceState) (inst' : FirebaseInstanceState)
    (hdel : inst.deleted = false) (hcache : inst.authTokens = .arr elems)
    (hcount : elems.count t = 1) (hstatus : statusCode ≤ 299)
    (hbody : (body.getField "error").truthy = false)
    (hrun : FirebaseInstance.removeAuthTokenCallback inst t none statusCode body =
      (out, inst')) :
    FirebaseInstance.removeAuthTokenFA inst t =
      .sendRequest (FirebaseInstance.removeAuthTokenRequest inst t) ∧
    out = .resolved inst' ∧
    inst'.authTokens = .arr (spliceIndexOf elems t) ∧
    FirebaseInstance.removeAuthTokenFA inst' t =
      .rejectNow (.unknownToken (FirebaseInstance.toString inst')) := by
  have hmem : t ∈ elems := List.count_pos_iff.mp (by omega)
  have hne : jsIndexOf elems t ≠ none := fun h =>
    absurd hmem ((jsIndexOf_eq_none_iff elems t).mp h)
  have hle : ¬ statusCode > 299 := by omega
  have heval : FirebaseInstance.removeAuthTokenCallback inst t none statusCode
      body =
      (.resolved { inst with authTokens := .arr (spliceIndexOf elems t) },
       { inst with authTokens := .arr (spliceIndexOf elems t) }) := by
    simp [FirebaseInstance.removeAuthTokenCallback, hle, hbody, hcache]
  rw [heval] at hrun
  simp only [Prod.mk.injEq] at hrun
  obtain ⟨hout, hinst⟩ := hrun
  subst hout
  subst hinst
  refine ⟨?_, rfl, rfl, ?_⟩
  · simp [FirebaseInstance.removeAuthTokenFA, hdel, hcache, JSVal.truthy, hne]
  · simp [FirebaseInstance.removeAuthTokenFA, hdel, JSVal.truthy,
      jsIndexOf_spliceIndexOf_of_count_one elems t hcount]

/-- C5 (witness for the amended theorem). -/
theorem removeAuthToken_round_trip_unknown_token_witness :
    FirebaseInstance.removeAuthTokenFA
      { name := "test123", adminToken := "admintok", personalToken := .str "ptok",
        authTokens := .arr [] } (.str "k") =
      .rejectNow (.unknownToken "https://test123.firebaseio.com") := by
  have h := (removeAuthToken_round_trip_unknown_token
    { name := "test123", adminToken := "admintok", personalToken := .str "ptok",
      authTokens := .arr [.str "k"] } [.str "k"] (.str "k") .null 200
    (.resolved
      { name := "test123", adminToken := "admintok", personalToken := .str "ptok",
        authTokens := .arr [] })
    { name := "test123", adminToken := "admintok", personalToken := .str "ptok",
      authTokens := .arr [] }
    rfl rfl
    (by simp [List.count_cons_self])
    (by omega) rfl
    (by simp [FirebaseInstance.removeAuthTokenCallback, JSVal.truthy,
      JSVal.getField, jsIndexOf, spliceIndexOf])).2.2.2
  simpa [spliceIndexOf, jsIndexOf, FirebaseInstance.toString] using h

/-- C6 (counterexample): the single-key object `rules: false` — whose only
key is the wrapping key — is nevertheless wrapped again, because the source
condition also requires the `rules` value to be truthy; the outgoing PUT
body is the double-wrapped document, not the object itself. -/
theorem setRules_falsy_rules_value_double_wrapped :
    FirebaseInstance.setRulesFA
      { name := "test123", adminToken := "admintok",
        personalToken := .str "ptok" } [("rules", .bool false)] =
      .sendRequest
        { method := .put
          url := "https://test123.firebaseio.com/.settings/rules.json"
          qs := [("auth", .str "ptok")]
          body := .obj [("rules", .obj [("rules", .bool false)])] } ∧
    FirebaseInstance.setRulesBody [("rules", .bool false)] ≠
      .obj [("rules", .bool false)] := by
  constructor
  · simp [FirebaseInstance.setRulesFA, FirebaseInstance.setRulesBody,
      JSVal.lookupField, JSVal.truthy]
  · simp [FirebaseInstance.setRulesBody, JSVal.lookupField, JSVal.truthy]

/-- C6 (amended): for a non-deleted Instance, the PUT body carries exactly
one top-level `rules` wrapping, where "already wrapped" requires both that
the argument's only key is `rules` and that its value is truthy: such
objects are sent as-is, every other object (including a single-key `rules`
object with a falsy value) is wrapped under a fresh `rules` key. -/
theorem setRules_wrapping_normalization (inst : FirebaseInstanceState)
    (r : List (String × JSVal)) (hdel : inst.deleted = false) :
    FirebaseInstance.setRulesFA inst r =
      .sendRequest
        { method := .put
          url := "https://" ++ inst.name ++ ".firebaseio.com/.settings/rules.json"
          qs := [("auth", inst.personalToken)]
          body :=
            if r.map Prod.fst = ["rules"] ∧ (JSVal.lookupField r "rules").truthy
            then .obj r
            else .obj [("rules", .obj r)] } := by
  have hcond := setRules_condition_iff r
  by_cases hc : (JSVal.lookupField r "rules").truthy ∧ r.length = 1
  · rw [FirebaseInstance.setRulesFA, if_neg (by simp [hdel]),
      FirebaseInstance.setRulesBody, if_pos hc, if_pos (hcond.mp hc)]
  · rw [FirebaseInstance.setRulesFA, if_neg (by simp [hdel]),
      FirebaseInstance.setRulesBody, if_neg hc,
      if_neg (fun h => hc (hcond.mpr h))]

/-- C6 (witness for the amended theorem). -/
theorem setRules_wrapping_normalization_witness :
    FirebaseInstance.setRulesFA
      { name := "test123", adminToken := "admintok",
        personalToken := .str "ptok" } [(".read", .bool true)] =
      .sendRequest
        { method := .put
          url := "https://test123.firebaseio.com/.settings/rules.json"
          qs := [("auth", .str "ptok")]
          body := .obj [("rules", .obj [(".read", .bool true)])] } := by
  have h := setRules_wrapping_normalization
    { name := "test123", adminToken := "admintok", personalToken := .str "ptok" }
    [(".read", .bool true)] rfl
  simpa [JSVal.lookupField, JSVal.truthy] using h

/-- C7: a `getAuthConfig` response that passes the transport, status and
error-field checks resolves with `null` exactly when the `authConfig`
field is the empty string, and otherwise resolves with the value
`JSON.parse` yields on that field (whenever the parse returns one). -/
theorem getAuthConfig_empty_string_null_else_parsed
    (parse : JSVal → Except String JSVal) (statusCode : Nat) (body ac v : JSVal)
    (hstatus : statusCode ≤ 299)
    (herr : (body.getField "error").truthy = false)
    (hac : body.getProp "authConfig" = some ac) :
    (ac = .str "" →
      FirebaseInstance.getAuthConfigCallback parse none statusCode body =
        .resolved .null) ∧
    (ac ≠ .str "" → parse ac = .ok v →
      FirebaseInstance.getAuthConfigCallback parse none statusCode body =
        .resolved v) := by
  have hle : ¬ statusCode > 299 := by omega
  constructor
  · intro he
    simp [FirebaseInstance.getAuthConfigCallback, hle, herr, hac, he]
  · intro hne hp
    simp [FirebaseInstance.getAuthConfigCallback, hle, herr, hac, hne, hp]

/-- C7 (witness). -/
theorem getAuthConfig_empty_string_null_else_parsed_witness :
    FirebaseInstance.getAuthConfigCallback (fun _ => .ok (.bool true)) none 200
      (.obj [("authConfig", .str "")]) = .resolved .null ∧
    FirebaseInstance.getAuthConfigCallback (fun _ => .ok (.bool true)) none 200
      (.obj [("authConfig", .str "sample")]) = .resolved (.bool true) := by
  constructor
  · exact (getAuthConfig_empty_string_null_else_parsed (fun _ => .ok (.bool true))
      200 (.obj [("authConfig", .str "")]) (.str "") (.bool true)
      (by omega) rfl rfl).1 rfl
  · exact (getAuthConfig_empty_string_null_else_parsed (fun _ => .ok (.bool true))
      200 (.obj [("authConfig", .str "sample")]) (.str "sample") (.bool true)
      (by omega) rfl rfl).2 (by simp) rfl

/-- C8 (counterexample): `toString` on the Instance that
`createDatabase('test123')` constructs yields the canonical URL *without* a
trailing slash, so it differs from the claimed `https://test123.<host>/`. -/
theorem toString_lacks_trailing_slash :
    FirebaseInstance.toString (FirebaseInstance.new "test123" "admintok") =
      "https://test123.firebaseio.com" ∧
    FirebaseInstance.toString (FirebaseInstance.new "test123" "admintok") ≠
      "https://test123.firebaseio.com/" :=
  ⟨rfl, by decide⟩

/-- C8 (amended): `toString` is a pure total function of the instance name,
and the Instance constructed by a successful `createDatabase(name)` has
`toString()` equal to `https://<name>.firebaseio.com`, with no trailing
slash. -/
theorem toString_canonical_url_no_slash (acct : FirebaseAccountState)
    (name : String) (freshId : Nat) (body ev : JSVal)
    (out : Outcome Nat) (acct' : FirebaseAccountState)
    (inst : FirebaseInstanceState)
    (h1 : body.getProp "error" = some ev) (h2 : ev.truthy = false)
    (h3 : body.getField "success" ≠ .bool false)
    (hrun : FirebaseAccount.createDatabaseCallback acct name freshId none 200
      (.ok body) = (out, acct', some inst)) :
    FirebaseInstance.toString inst = "https://" ++ name ++ ".firebaseio.com" := by
  have heval : FirebaseAccount.createDatabaseCallback acct name freshId none 200
      (.ok body) =
      (.resolved freshId,
       { acct with dbs := FirebaseAccount.upsertDb acct.dbs name freshId },
       some (FirebaseInstance.new name acct.adminToken)) := by
    simp [FirebaseAccount.createDatabaseCallback, h1, h2, h3]
  rw [heval] at hrun
  simp only [Prod.mk.injEq, Option.some.injEq] at hrun
  obtain ⟨-, -, hinst⟩ := hrun
  subst hinst
  rfl

/-- C8 (witness for the amended theorem). -/
theorem toString_canonical_url_no_slash_witness :
    FirebaseInstance.toString (FirebaseInstance.new "test123" "admintok") =
      "https://" ++ "test123" ++ ".firebaseio.com" :=
  toString_canonical_url_no_slash { adminToken := "admintok" } "test123" 0
    (.obj []) .undefined (.resolved 0)
    { adminToken := "admintok", dbs := [("test123", 0)] }
    (FirebaseInstance.new "test123" "admintok")
    rfl rfl (by simp [JSVal.getField, JSVal.lookupField])
    (by simp [FirebaseAccount.createDatabaseCallback, FirebaseAccount.upsertDb,
      JSVal.getProp, JSVal.getField, JSVal.lookupField, JSVal.truthy,
      FirebaseInstance.new])

/-- C9: when `addAuthToken` succeeds on a non-deleted Instance whose token
cache was never populated, the cache is created holding exactly the one
newly issued token; `getAuthTokens` then resolves locally with that
one-element list (no fetch of the remote secrets listing), and
`removeAuthToken` of any other token rejects immediately with the
unknown-token error, issuing no remote call. -/
theorem addAuthToken_creates_singleton_cache (inst : FirebaseInstanceState)
    (s : String) (t : JSVal) (out : Outcome JSVal)
    (inst' : FirebaseInstanceState)
    (hdel : inst.deleted = false) (hcache : inst.authTokens = .undefined)
    (ht : t ≠ .str s)
    (hrun : FirebaseInstance.addAuthTokenCallback inst none 200 (.str s) =
      (out, inst')) :
    out = .resolved (.str s) ∧
    inst'.authTokens = .arr [.str s] ∧
    FirebaseInstance.getAuthTokensFA inst' = .resolveNow (.arr [.str s]) ∧
    FirebaseInstance.removeAuthTokenFA inst' t =
      .rejectNow (.unknownToken (FirebaseInstance.toString inst')) := by
  have heval : FirebaseInstance.addAuthTokenCallback inst none 200 (.str s) =
      (.resolved (.str s), { inst with authTokens := .arr [.str s] }) := by
    simp [FirebaseInstance.addAuthTokenCallback, hcache, JSVal.getProp,
      JSVal.truthy]
  rw [heval] at hrun
  simp only [Prod.mk.injEq] at hrun
  obtain ⟨hout, hinst⟩ := hrun
  subst hout
  subst hinst
  refine ⟨rfl, rfl, ?_, ?_⟩
  · simp [FirebaseInstance.getAuthTokensFA, hdel, JSVal.truthy]
  · simp [FirebaseInstance.removeAuthTokenFA, hdel, JSVal.truthy, jsIndexOf,
      Ne.symm ht]

/-- C9 (witness). -/
theorem addAuthToken_creates_singleton_cache_witness :
    FirebaseInstance.getAuthTokensFA
      { name := "test123", adminToken := "admintok", personalToken := .str "ptok",
        authTokens := .arr [.str "newtok"] } = .resolveNow (.arr [.str "newtok"]) ∧
    FirebaseInstance.removeAuthTokenFA
      { name := "test123", adminToken := "admintok", personalToken := .str "ptok",
        authTokens := .arr [.str "newtok"] } (.str "other") =
      .rejectNow (.unknownToken "https://test123.firebaseio.com") := by
  have h := addAuthToken_creates_singleton_cache
    { name := "test123", adminToken := "admintok", personalToken := .str "ptok" }
    "newtok" (.str "other") (.resolved (.str "newtok"))
    { name := "test123", adminToken := "admintok", personalToken := .str "ptok",
      authTokens := .arr [.str "newtok"] }
    rfl rfl (by simp)
    (by simp [FirebaseInstance.addAuthTokenCallback, JSVal.getProp,
      JSVal.truthy])
  exact ⟨h.2.2.1, h.2.2.2⟩

/-- C10: with the transport check passed, the strict callbacks
(`createDatabase`, `deleteDatabase`, the construction readiness exchange,
`getAuthTokens`, `addAuthToken`) reject with the status error every status
code other than 200, for any body; the lenient callbacks
(`removeAuthToken`'s DELETE, `getRules`, `setRules`, `getAuthConfig`,
`setAuthConfig` and the shared user-directory callback) reject by status
exactly the codes above 299 — and at any code up to 299 they proceed past
the status check (shown resolving on benign bodies), so a 2xx code such as
204 separates the two groups. -/
theorem status_code_classification_split (s : Nat)
    (acct : FirebaseAccountState) (name : String) (freshId : Nat)
    (inst : FirebaseInstanceState) (token body : JSVal)
    (parse : JSVal → Except String JSVal) :
    (s ≠ 200 →
      FirebaseAccount.createDatabaseCallback acct name freshId none s (.ok body) =
        (.rejected (.httpStatus s), acct, none) ∧
      FirebaseAccount.deleteDatabaseCallback acct inst none s (.ok body) =
        (.rejected (.httpStatus s), acct, inst) ∧
      FirebaseInstance.readyCallback inst none s body =
        (.rejected (.httpStatus s), inst) ∧
      FirebaseInstance.getAuthTokensCallback inst none s body =
        (.rejected (.httpStatus s), inst) ∧
      FirebaseInstance.addAuthTokenCallback inst none s body =
        (.rejected (.httpStatus s), inst)) ∧
    (s > 299 →
      FirebaseInstance.removeAuthTokenCallback inst token none s body =
        (.rejected (.httpStatus s), inst) ∧
      FirebaseInstance.getRulesCallback none s body =
        .rejected (.httpStatus s) ∧
      FirebaseInstance.setRulesCallback inst none s body =
        .rejected (.httpStatus s) ∧
      FirebaseInstance.getAuthConfigCallback parse none s body =
        .rejected (.httpStatus s) ∧
      FirebaseInstance.setAuthConfigCallback none s body =
        .rejected (.httpStatus s) ∧
      FirebaseInstance.authMethodCallback none s body =
        .rejected (.httpStatus s)) ∧
    (s ≤ 299 →
      FirebaseInstance.getRulesCallback none s (.obj [("rules", .str "r")]) =
        .resolved (.str "r") ∧
      FirebaseInstance.setRulesCallback inst none s (.obj [("status", .str "ok")]) =
        .resolved inst ∧
      FirebaseInstance.getAuthConfigCallback parse none s
        (.obj [("authConfig", .str "")]) = .resolved .null ∧
      FirebaseInstance.setAuthConfigCallback none s .null = .resolved .undefined ∧
      FirebaseInstance.authMethodCallback none s (.obj []) =
        .resolved (.obj []) ∧
      (FirebaseInstance.removeAuthTokenCallback
          { inst with authTokens := .arr [token] } token none s .null).1 =
        .resolved { inst with authTokens := .arr [] }) := by
  refine ⟨fun hs => ?_, fun hs => ?_, fun hs => ?_⟩
  · simp [FirebaseAccount.createDatabaseCallback,
      FirebaseAccount.deleteDatabaseCallback, FirebaseInstance.readyCallback,
      FirebaseInstance.getAuthTokensCallback,
      FirebaseInstance.addAuthTokenCallback, hs]
  · simp [FirebaseInstance.removeAuthTokenCallback,
      FirebaseInstance.getRulesCallback, FirebaseInstance.setRulesCallback,
      FirebaseInstance.getAuthConfigCallback,
      FirebaseInstance.setAuthConfigCallback,
      FirebaseInstance.authMethodCallback, hs]
  · have hle : ¬ s > 299 := by omega
    simp [FirebaseInstance.removeAuthTokenCallback,
      FirebaseInstance.getRulesCallback, FirebaseInstance.setRulesCallback,
      FirebaseInstance.getAuthConfigCallback,
      FirebaseInstance.setAuthConfigCallback,
      FirebaseInstance.authMethodCallback, hle, JSVal.truthy, JSVal.getField,
      JSVal.getProp, JSVal.lookupField, jsIndexOf, spliceIndexOf]

/-- C10 (witness): at status 204 the strict `createDatabase` callback
rejects while the lenient `getRules` callback resolves, and at status 500
the lenient callback rejects. -/
theorem status_code_classification_split_witness :
    FirebaseAccount.createDatabaseCallback { adminToken := "admintok" } "mydb" 0
      none 204 (.ok (.obj [])) =
      (.rejected (.httpStatus 204), { adminToken := "admintok" }, none) ∧
    FirebaseInstance.getRulesCallback none 204 (.obj [("rules", .str "r")]) =
      .resolved (.str "r") ∧
    FirebaseInstance.getRulesCallback none 500 (.obj [("rules", .str "r")]) =
      .rejected (.httpStatus 500) := by
  refine ⟨?_, ?_, ?_⟩
  · exact ((status_code_classification_split 204 { adminToken := "admintok" }
      "mydb" 0 (FirebaseInstance.new "test123" "admintok") (.str "k")
      (.obj []) (fun _ => .error "SyntaxError")).1 (by omega)).1
  · exact ((status_code_classification_split 204 { adminToken := "admintok" }
      "mydb" 0 (FirebaseInstance.new "test123" "admintok") (.str "k")
      (.obj []) (fun _ => .error "SyntaxError")).2.2 (by omega)).1
  · exact ((status_code_classification_split 500 { adminToken := "admintok" }
      "mydb" 0 (FirebaseInstance.new "test123" "admintok") (.str "k")
      (.obj [("rules", .str "r")]) (fun _ => .error "SyntaxError")).2.1
      (by omega)).2.1
